import Mathlib

/-!
Shallow embedding of the transaction–balance–budget consistency engine of the
grana-zen backend: the model classes `Despesa` (src/src/models/Despesa.js),
`Receita` (src/src/models/Receita.js) and `Orcamento`
(src/src/models/Orcamento.js).

Modelling conventions:
* monetary values are rationals (`ℚ`);
* the Supabase tables (`gzen_accounts`, `gzen_cartao_credito`,
  `gzen_despesas`, `gzen_receitas`, `gzen_orcamento`) are in-memory lists
  inside `Db`; every `supabase` read/write of the source becomes an explicit
  read/update of that state; `.single()` queries become `List.find?`;
* the primary insert/update/delete write of a transaction row, which the
  source can see fail (the thrown Supabase error), takes an explicit
  `Bool` success flag; the secondary balance/budget writes never abort in
  the source (errors are caught and logged) and so are total here;
* JavaScript quirks that matter to the claims are modelled explicitly:
  `updates.x || fallback` on a number (where `0` is falsy) is `jsOr`;
  `new Date("YYYY-MM-DD")` parses as UTC midnight while
  `getMonth`/`getFullYear` read the server's *local* civil date, modelled by
  `localCivilDate` with the zone offset `tz` in minutes east of UTC
  (valid for real offsets, i.e. |tz| < 1440);
* the `T00:00:00-03:00` round trip in `create`/`update`
  (`new Date(s + 'T00:00:00-03:00').toISOString().split('T')[0]`) maps a
  well-formed date string to itself (the instant is 03:00 UTC of the same
  civil day), so stored dates equal input dates and are kept structured;
* tag-association writes touch only the tag tables, never balances or
  budgets, and are irrelevant to every claim, so the tag tables are omitted.
-/

inductive Status where
  | confirmada
  | pendente
  | cancelada
  deriving DecidableEq, Repr

inductive Tipo where
  | receita
  | despesa
  deriving DecidableEq, Repr

inductive Op where
  | add
  | subtract
  deriving DecidableEq, Repr

inductive GzenError where
  | primaryWriteFailed
  | notFound
  deriving DecidableEq, Repr

/-- A calendar date as stored in the `data_despesa` / `data_receita` columns
(`YYYY-MM-DD`). -/
structure GDate where
  ano : Nat
  mes : Nat
  dia : Nat
  deriving DecidableEq, Repr

def isLeapYear (y : Nat) : Bool :=
  (y % 4 == 0 && y % 100 != 0) || y % 400 == 0

/-- Number of days of calendar month `mes` of year `ano`; this is what
`new Date(ano, mes, 0).getDate()` computes in `getResumoMensal` and
`Orcamento.recalcular`. -/
def daysInMonth (ano mes : Nat) : Nat :=
  if mes == 2 then (if isLeapYear ano then 29 else 28)
  else if mes == 4 || mes == 6 || mes == 9 || mes == 11 then 30
  else 31

/-- Comparison of ISO `YYYY-MM-DD` strings (as done by the `gte`/`lte`
range filters of the source) is lexicographic on (year, month, day) for
zero-padded components. -/
def GDate.le (a b : GDate) : Prop :=
  a.ano < b.ano ∨ (a.ano = b.ano ∧ (a.mes < b.mes ∨ (a.mes = b.mes ∧ a.dia ≤ b.dia)))

instance (a b : GDate) : Decidable (GDate.le a b) := by
  unfold GDate.le; infer_instance

/-- Well-formedness of a stored calendar date. -/
def ValidDate (d : GDate) : Prop :=
  1 ≤ d.mes ∧ d.mes ≤ 12 ∧ 1 ≤ d.dia ∧ d.dia ≤ daysInMonth d.ano d.mes

instance (d : GDate) : Decidable (ValidDate d) := by
  unfold ValidDate; infer_instance

/-- Civil date one day earlier. -/
def GDate.prevDay (d : GDate) : GDate :=
  if 1 < d.dia then ⟨d.ano, d.mes, d.dia - 1⟩
  else if 1 < d.mes then ⟨d.ano, d.mes - 1, daysInMonth d.ano (d.mes - 1)⟩
  else ⟨d.ano - 1, 12, 31⟩

/-- The local civil date, at the instant "UTC midnight of `d`", of a server
whose zone offset is `tz` minutes east of UTC (real offsets satisfy
|tz| < 1440): the same day for `tz ≥ 0`, the previous day for `tz < 0`.
This is the date that `getFullYear()`/`getMonth()` read after
`new Date("YYYY-MM-DD")` parsed the string as UTC midnight. -/
def localCivilDate (tz : Int) (d : GDate) : GDate :=
  if 0 ≤ tz then d else d.prevDay

/-- The (month, year) budget-period key that `updateOrcamento` derives from a
transaction date via `new Date(data)` + `getMonth() + 1` / `getFullYear()`,
on a server with zone offset `tz`. -/
def periodKeyOf (tz : Int) (d : GDate) : Nat × Nat :=
  ((localCivilDate tz d).mes, (localCivilDate tz d).ano)

/-- Row of `gzen_accounts` (the fields the engine touches). -/
structure Conta where
  id : Nat
  saldo_atual : ℚ
  deriving DecidableEq, Repr

/-- Row of `gzen_cartao_credito`, keyed by `account_id`. -/
structure Cartao where
  account_id : Nat
  limite_disponivel : ℚ
  limite_total : ℚ
  deriving DecidableEq, Repr

/-- Row of `gzen_despesas` (the fields the engine touches). -/
structure DespesaRow where
  id : Nat
  user_id : Nat
  account_id : Nat
  valor : ℚ
  data_despesa : GDate
  status : Status
  ativo : Bool
  eh_pagamento_fatura : Bool
  cartao_origem_id : Option Nat
  deriving DecidableEq, Repr

/-- Row of `gzen_receitas` (the fields the engine touches). -/
structure ReceitaRow where
  id : Nat
  user_id : Nat
  account_id : Nat
  valor : ℚ
  data_receita : GDate
  status : Status
  ativo : Bool
  deriving DecidableEq, Repr

/-- Row of `gzen_orcamento`, unique per (user_id, mes, ano). -/
structure OrcamentoRow where
  user_id : Nat
  mes : Nat
  ano : Nat
  receita_total : ℚ
  despesa_total : ℚ
  saldo_atual : ℚ
  meta_economia : ℚ
  deriving DecidableEq, Repr

/-- The persistent state the engine reads and writes. -/
structure Db where
  contas : List Conta
  cartoes : List Cartao
  despesas : List DespesaRow
  receitas : List ReceitaRow
  orcamentos : List OrcamentoRow
  nextDespesaId : Nat
  nextReceitaId : Nat
  deriving DecidableEq, Repr

def findConta (db : Db) (accountId : Nat) : Option Conta :=
  db.contas.find? (fun c => c.id == accountId)

def findCartao (db : Db) (cartaoId : Nat) : Option Cartao :=
  db.cartoes.find? (fun c => c.account_id == cartaoId)

/-- The unique key of `gzen_orcamento` (`onConflict: 'user_id,mes,ano'`). -/
def orcKey (u m y : Nat) (o : OrcamentoRow) : Bool :=
  o.user_id == u && o.mes == m && o.ano == y

def findOrcamento (db : Db) (u m y : Nat) : Option OrcamentoRow :=
  db.orcamentos.find? (orcKey u m y)

/-- JavaScript `upd || fallback` where `upd` is `updates.x` (possibly
`undefined`) and the values are numbers: `0` is falsy and falls back. -/
def jsOr (upd : Option ℚ) (fallback : ℚ) : ℚ :=
  match upd with
  | some x => if x = 0 then fallback else x
  | none => fallback

/-- Embeds `Despesa.updateAccountBalance` and `Receita.updateAccountBalance`
(their bodies are identical; the `Despesa` version merely selects one extra
unused column): read the account's `saldo_atual`, add or subtract `valor`,
write it back; if the account is not found, do nothing. -/
def updateAccountBalance (accountId : Nat) (valor : ℚ) (operation : Op) (db : Db) : Db :=
  match findConta db accountId with
  | none => db
  | some account =>
      let novoSaldo :=
        if operation = Op.add then account.saldo_atual + valor
        else account.saldo_atual - valor
      { db with contas := db.contas.map (fun a =>
          if a.id == accountId then { a with saldo_atual := novoSaldo } else a) }

/-- Embeds `Despesa.updateOrcamento` and `Receita.updateOrcamento` (verbatim
identical in the source).  Derives the period key from the transaction date
(`new Date(data)` + local `getMonth`/`getFullYear`, hence the `tz`
parameter), then either inserts a fresh period row (note: the insert branch
ignores `operation`) or adjusts the total of the given `tipo` and recomputes
`saldo_atual` with the JavaScript `||` fallbacks of the source.  The source
updates the found row by its `id`; rows are keyed here by the unique
(user, mes, ano) key it was found by. -/
def updateOrcamento (tz : Int) (userId : Nat) (data : GDate) (valor : ℚ)
    (tipo : Tipo) (operation : Op) (db : Db) : Db :=
  let mes : Nat := (periodKeyOf tz data).1
  let ano : Nat := (periodKeyOf tz data).2
  match findOrcamento db userId mes ano with
  | none =>
      { db with orcamentos := db.orcamentos ++ [{
          user_id := userId, mes := mes, ano := ano,
          receita_total := if tipo = Tipo.receita then valor else 0,
          despesa_total := if tipo = Tipo.despesa then valor else 0,
          saldo_atual := if tipo = Tipo.receita then valor else -valor,
          meta_economia := 0 }] }
  | some orcamento =>
      let multiplicador : ℚ := if operation = Op.add then 1 else -1
      let valorAtualizado := valor * multiplicador
      let updReceita : Option ℚ :=
        if tipo = Tipo.receita then some (orcamento.receita_total + valorAtualizado) else none
      let updDespesa : Option ℚ :=
        if tipo = Tipo.despesa then some (orcamento.despesa_total + valorAtualizado) else none
      let novaReceita := jsOr updReceita orcamento.receita_total
      let novaDespesa := jsOr updDespesa orcamento.despesa_total
      let novoSaldo := novaReceita - novaDespesa
      { db with orcamentos := db.orcamentos.map (fun o =>
          if orcKey userId mes ano o then
            { o with receita_total := updReceita.getD o.receita_total,
                     despesa_total := updDespesa.getD o.despesa_total,
                     saldo_atual := novoSaldo }
          else o) }

/-- Embeds `Despesa.processarPagamentoFatura`: debit the funding account,
then set the card's available limit to `min(available + valor, total)`. -/
def Despesa.processarPagamentoFatura (despesa : DespesaRow) (db : Db) : Db :=
  let db1 := updateAccountBalance despesa.account_id despesa.valor Op.subtract db
  match despesa.cartao_origem_id with
  | none => db1
  | some cid =>
      match findCartao db1 cid with
      | none => db1
      | some cartao =>
          let novoLimiteDisponivel := cartao.limite_disponivel + despesa.valor
          let limiteAtualizado := min novoLimiteDisponivel cartao.limite_total
          { db1 with cartoes := db1.cartoes.map (fun c =>
              if c.account_id == cid then { c with limite_disponivel := limiteAtualizado } else c) }

/-- Embeds `Despesa.processarDespesa`: invoice payments take the
card-limit path, other expenses debit the account; then the budget is
incremented. -/
def Despesa.processarDespesa (tz : Int) (despesa : DespesaRow) (userId : Nat) (db : Db) : Db :=
  let db1 :=
    if despesa.eh_pagamento_fatura && despesa.cartao_origem_id.isSome then
      Despesa.processarPagamentoFatura despesa db
    else
      updateAccountBalance despesa.account_id despesa.valor Op.subtract db
  updateOrcamento tz userId despesa.data_despesa despesa.valor Tipo.despesa Op.add db1

/-- Embeds `Despesa.reverterDespesa`: invoice payments credit the funding
account back and set the card's available limit to
`max(available - valor, 0)`; other expenses credit the account; then the
budget is decremented. -/
def Despesa.reverterDespesa (tz : Int) (despesa : DespesaRow) (userId : Nat) (db : Db) : Db :=
  let db1 :=
    if despesa.eh_pagamento_fatura && despesa.cartao_origem_id.isSome then
      let dbA := updateAccountBalance despesa.account_id despesa.valor Op.add db
      match despesa.cartao_origem_id with
      | none => dbA
      | some cid =>
          match findCartao dbA cid with
          | none => dbA
          | some cartao =>
              let novoLimiteDisponivel := cartao.limite_disponivel - despesa.valor
              let limiteAtualizado := max novoLimiteDisponivel 0
              { dbA with cartoes := dbA.cartoes.map (fun c =>
                  if c.account_id == cid then { c with limite_disponivel := limiteAtualizado } else c) }
    else
      updateAccountBalance despesa.account_id despesa.valor Op.add db
  updateOrcamento tz userId despesa.data_despesa despesa.valor Tipo.despesa Op.subtract db1

/-- Embeds `Despesa.handleBalanceUpdates`: three (mutually exclusive)
status-transition branches. -/
def Despesa.handleBalanceUpdates (tz : Int) (despesaAntiga despesaNova : DespesaRow)
    (userId : Nat) (db : Db) : Db :=
  let db1 :=
    if despesaAntiga.status = Status.confirmada ∧ despesaNova.status ≠ Status.confirmada then
      Despesa.reverterDespesa tz despesaAntiga userId db
    else db
  let db2 :=
    if despesaAntiga.status ≠ Status.confirmada ∧ despesaNova.status = Status.confirmada then
      Despesa.processarDespesa tz despesaNova userId db1
    else db1
  if despesaAntiga.status = Status.confirmada ∧ despesaNova.status = Status.confirmada then
    Despesa.processarDespesa tz despesaNova userId (Despesa.reverterDespesa tz despesaAntiga userId db2)
  else db2

/-- Embeds `Despesa.findById`: lookup by id and user, with **no**
`ativo` filter (unlike `findByUserId`). -/
def Despesa.findById (despesaId userId : Nat) (db : Db) : Option DespesaRow :=
  db.despesas.find? (fun d => d.id == despesaId && d.user_id == userId)

/-- The caller-supplied payload of `Despesa.create` (tags omitted, see the
file comment). -/
structure DespesaInput where
  account_id : Nat
  valor : ℚ
  data_despesa : GDate
  status : Status
  eh_pagamento_fatura : Bool
  cartao_origem_id : Option Nat
  deriving DecidableEq, Repr

/-- The `{ despesa, error }` result shape of `Despesa.create`/`update`. -/
structure DespesaResult where
  despesa : Option DespesaRow
  error : Option GzenError
  deriving DecidableEq, Repr

/-- Embeds `Despesa.create`: insert the row (the primary write, whose
possible failure is the `insertOk` flag — on failure the thrown error is
caught and returned with no side effects); if the new row is `confirmada`,
process it. -/
def Despesa.create (tz : Int) (insertOk : Bool) (userId : Nat) (input : DespesaInput)
    (db : Db) : DespesaResult × Db :=
  if insertOk = false then
    ({ despesa := none, error := some GzenError.primaryWriteFailed }, db)
  else
    let row : DespesaRow := {
      id := db.nextDespesaId, user_id := userId,
      account_id := input.account_id, valor := input.valor,
      data_despesa := input.data_despesa,
      status := input.status, ativo := true,
      eh_pagamento_fatura := input.eh_pagamento_fatura,
      cartao_origem_id := input.cartao_origem_id }
    let db1 := { db with despesas := db.despesas ++ [row],
                         nextDespesaId := db.nextDespesaId + 1 }
    let db2 := if row.status = Status.confirmada then Despesa.processarDespesa tz row userId db1 else db1
    ({ despesa := some row, error := none }, db2)

/-- A partial update payload (`updateData`): present fields overwrite the
row, absent fields leave it untouched. -/
structure DespesaPatch where
  valor : Option ℚ := none
  account_id : Option Nat := none
  data_despesa : Option GDate := none
  status : Option Status := none
  deriving DecidableEq, Repr

def Despesa.applyPatch (p : DespesaPatch) (d : DespesaRow) : DespesaRow :=
  { d with valor := p.valor.getD d.valor,
           account_id := p.account_id.getD d.account_id,
           data_despesa := p.data_despesa.getD d.data_despesa,
           status := p.status.getD d.status }

/-- Embeds `Despesa.update`: find the current row (error if absent), apply
the primary update write (failure flag `updateOk`; on failure no side
effects), then `handleBalanceUpdates` with old and new row. -/
def Despesa.update (tz : Int) (updateOk : Bool) (despesaId userId : Nat)
    (p : DespesaPatch) (db : Db) : DespesaResult × Db :=
  match Despesa.findById despesaId userId db with
  | none => ({ despesa := none, error := some GzenError.notFound }, db)
  | some despesaAtual =>
      if updateOk = false then
        ({ despesa := none, error := some GzenError.primaryWriteFailed }, db)
      else
        let despesaNova := Despesa.applyPatch p despesaAtual
        let db1 := { db with despesas := db.despesas.map (fun d =>
            if d.id == despesaId && d.user_id == userId then Despesa.applyPatch p d else d) }
        let db2 := Despesa.handleBalanceUpdates tz despesaAtual despesaNova userId db1
        ({ despesa := some despesaNova, error := none }, db2)

/-- The `{ success, error }` result shape of `delete`. -/
structure DeleteResult where
  success : Bool
  error : Option GzenError
  deriving DecidableEq, Repr

/-- Embeds `Despesa.delete`: find the row (error if absent — note
`findById` does not filter on `ativo`), apply the soft-delete write
(failure flag `deleteOk`), then revert the effect if the row was
`confirmada`. -/
def Despesa.delete (tz : Int) (deleteOk : Bool) (despesaId userId : Nat)
    (db : Db) : DeleteResult × Db :=
  match Despesa.findById despesaId userId db with
  | none => ({ success := false, error := some GzenError.notFound }, db)
  | some despesa =>
      if deleteOk = false then
        ({ success := false, error := some GzenError.primaryWriteFailed }, db)
      else
        let db1 := { db with despesas := db.despesas.map (fun d =>
            if d.id == despesaId && d.user_id == userId then { d with ativo := false } else d) }
        let db2 := if despesa.status = Status.confirmada then Despesa.reverterDespesa tz despesa userId db1 else db1
        ({ success := true, error := none }, db2)

def Receita.findById (receitaId userId : Nat) (db : Db) : Option ReceitaRow :=
  db.receitas.find? (fun r => r.id == receitaId && r.user_id == userId)

structure ReceitaInput where
  account_id : Nat
  valor : ℚ
  data_receita : GDate
  status : Status
  deriving DecidableEq, Repr

structure ReceitaResult where
  receita : Option ReceitaRow
  error : Option GzenError
  deriving DecidableEq, Repr

/-- Embeds `Receita.create`: insert the row; if `confirmada`, credit the
account and increment the budget. -/
def Receita.create (tz : Int) (insertOk : Bool) (userId : Nat) (input : ReceitaInput)
    (db : Db) : ReceitaResult × Db :=
  if insertOk = false then
    ({ receita := none, error := some GzenError.primaryWriteFailed }, db)
  else
    let row : ReceitaRow := {
      id := db.nextReceitaId, user_id := userId,
      account_id := input.account_id, valor := input.valor,
      data_receita := input.data_receita,
      status := input.status, ativo := true }
    let db1 := { db with receitas := db.receitas ++ [row],
                         nextReceitaId := db.nextReceitaId + 1 }
    let db2 :=
      if row.status = Status.confirmada then
        updateOrcamento tz userId row.data_receita row.valor Tipo.receita Op.add
          (updateAccountBalance row.account_id row.valor Op.add db1)
      else db1
    ({ receita := some row, error := none }, db2)

structure ReceitaPatch where
  valor : Option ℚ := none
  account_id : Option Nat := none
  data_receita : Option GDate := none
  status : Option Status := none
  deriving DecidableEq, Repr

def Receita.applyPatch (p : ReceitaPatch) (r : ReceitaRow) : ReceitaRow :=
  { r with valor := p.valor.getD r.valor,
           account_id := p.account_id.getD r.account_id,
           data_receita := p.data_receita.getD r.data_receita,
           status := p.status.getD r.status }

/-- Embeds `Receita.handleBalanceUpdates` (the balance/budget steps are
inlined in the source rather than factored through
`processar`/`reverter` helpers). -/
def Receita.handleBalanceUpdates (tz : Int) (receitaAntiga receitaNova : ReceitaRow)
    (userId : Nat) (db : Db) : Db :=
  let db1 :=
    if receitaAntiga.status = Status.confirmada ∧ receitaNova.status ≠ Status.confirmada then
      updateOrcamento tz userId receitaAntiga.data_receita receitaAntiga.valor Tipo.receita Op.subtract
        (updateAccountBalance receitaAntiga.account_id receitaAntiga.valor Op.subtract db)
    else db
  let db2 :=
    if receitaAntiga.status ≠ Status.confirmada ∧ receitaNova.status = Status.confirmada then
      updateOrcamento tz userId receitaNova.data_receita receitaNova.valor Tipo.receita Op.add
        (updateAccountBalance receitaNova.account_id receitaNova.valor Op.add db1)
    else db1
  if receitaAntiga.status = Status.confirmada ∧ receitaNova.status = Status.confirmada then
    updateOrcamento tz userId receitaNova.data_receita receitaNova.valor Tipo.receita Op.add
      (updateAccountBalance receitaNova.account_id receitaNova.valor Op.add
        (updateOrcamento tz userId receitaAntiga.data_receita receitaAntiga.valor Tipo.receita Op.subtract
          (updateAccountBalance receitaAntiga.account_id receitaAntiga.valor Op.subtract db2)))
  else db2

/-- Embeds `Receita.update`. -/
def Receita.update (tz : Int) (updateOk : Bool) (receitaId userId : Nat)
    (p : ReceitaPatch) (db : Db) : ReceitaResult × Db :=
  match Receita.findById receitaId userId db with
  | none => ({ receita := none, error := some GzenError.notFound }, db)
  | some receitaAtual =>
      if updateOk = false then
        ({ receita := none, error := some GzenError.primaryWriteFailed }, db)
      else
        let receitaNova := Receita.applyPatch p receitaAtual
        let db1 := { db with receitas := db.receitas.map (fun r =>
            if r.id == receitaId && r.user_id == userId then Receita.applyPatch p r else r) }
        let db2 := Receita.handleBalanceUpdates tz receitaAtual receitaNova userId db1
        ({ receita := some receitaNova, error := none }, db2)

/-- Embeds `Receita.delete`: soft delete, then reverse (debit account,
decrement budget) if the row was `confirmada`. -/
def Receita.delete (tz : Int) (deleteOk : Bool) (receitaId userId : Nat)
    (db : Db) : DeleteResult × Db :=
  match Receita.findById receitaId userId db with
  | none => ({ success := false, error := some GzenError.notFound }, db)
  | some receita =>
      if deleteOk = false then
        ({ success := false, error := some GzenError.primaryWriteFailed }, db)
      else
        let db1 := { db with receitas := db.receitas.map (fun r =>
            if r.id == receitaId && r.user_id == userId then { r with ativo := false } else r) }
        let db2 :=
          if receita.status = Status.confirmada then
            updateOrcamento tz userId receita.data_receita receita.valor Tipo.receita Op.subtract
              (updateAccountBalance receita.account_id receita.valor Op.subtract db1)
          else db1
        ({ success := true, error := none }, db2)

/-- The date-range membership test of `Orcamento.recalcular`
(`gte dataInicio` and `lte dataFim` on the ISO date string). -/
def inPeriodo (dataInicio dataFim d : GDate) : Bool :=
  decide (GDate.le dataInicio d) && decide (GDate.le d dataFim)

/-- Total of confirmed active receitas of the user whose date falls in the
queried month, exactly as `Orcamento.recalcular` computes it. -/
def recalcReceitaTotal (db : Db) (userId mes ano : Nat) : ℚ :=
  ((db.receitas.filter (fun r =>
      r.user_id == userId && r.status == Status.confirmada && r.ativo
        && inPeriodo ⟨ano, mes, 1⟩ ⟨ano, mes, daysInMonth ano mes⟩ r.data_receita)).map
    (fun r => r.valor)).sum

/-- Total of confirmed active despesas of the user whose date falls in the
queried month, exactly as `Orcamento.recalcular` computes it. -/
def recalcDespesaTotal (db : Db) (userId mes ano : Nat) : ℚ :=
  ((db.despesas.filter (fun d =>
      d.user_id == userId && d.status == Status.confirmada && d.ativo
        && inPeriodo ⟨ano, mes, 1⟩ ⟨ano, mes, daysInMonth ano mes⟩ d.data_despesa)).map
    (fun d => d.valor)).sum

structure RecalcResult where
  orcamento : Option OrcamentoRow
  error : Option GzenError
  deriving DecidableEq, Repr

/-- Embeds `Orcamento.recalcular`: recompute the three totals from the
transaction tables and upsert them keyed by (user_id, mes, ano);
`meta_economia` is untouched on an existing row and zero on a fresh one. -/
def Orcamento.recalcular (userId mes ano : Nat) (db : Db) : RecalcResult × Db :=
  let receitaTotal := recalcReceitaTotal db userId mes ano
  let despesaTotal := recalcDespesaTotal db userId mes ano
  let saldoAtual := receitaTotal - despesaTotal
  match findOrcamento db userId mes ano with
  | some orcamento =>
      let atualizado : OrcamentoRow :=
        { orcamento with receita_total := receitaTotal, despesa_total := despesaTotal,
                         saldo_atual := saldoAtual }
      let db1 : Db :=
        { db with orcamentos := db.orcamentos.map (fun o =>
            if orcKey userId mes ano o then
              { o with receita_total := receitaTotal, despesa_total := despesaTotal,
                       saldo_atual := saldoAtual }
            else o) }
      ({ orcamento := some atualizado, error := none }, db1)
  | none =>
      let novo : OrcamentoRow :=
        { user_id := userId, mes := mes, ano := ano,
          receita_total := receitaTotal, despesa_total := despesaTotal,
          saldo_atual := saldoAtual, meta_economia := 0 }
      ({ orcamento := some novo, error := none },
       { db with orcamentos := db.orcamentos ++ [novo] })

def contaSaldo (db : Db) (accountId : Nat) : Option ℚ :=
  (findConta db accountId).map (fun c => c.saldo_atual)

def cartaoDisp (db : Db) (cartaoId : Nat) : Option ℚ :=
  (findCartao db cartaoId).map (fun c => c.limite_disponivel)

def orcReceitaTotal (db : Db) (u m y : Nat) : Option ℚ :=
  (findOrcamento db u m y).map (fun o => o.receita_total)

def orcDespesaTotal (db : Db) (u m y : Nat) : Option ℚ :=
  (findOrcamento db u m y).map (fun o => o.despesa_total)

def orcSaldoAtual (db : Db) (u m y : Nat) : Option ℚ :=
  (findOrcamento db u m y).map (fun o => o.saldo_atual)

/-! ### Helper lemmas about the list-backed stores -/

theorem find_update_eq {α : Type} (p : α → Bool) (f : α → α)
    (hf : ∀ x, p x = true → p (f x) = true) :
    ∀ l : List α, (l.map (fun x => if p x then f x else x)).find? p = (l.find? p).map f := by
  intro l
  induction l with
  | nil => rfl
  | cons a l ih =>
      cases h : p a with
      | true =>
          rw [List.map_cons, if_pos h, List.find?_cons_of_pos _ (hf a h), List.find?_cons_of_pos _ h]
          rfl
      | false =>
          rw [List.map_cons, if_neg (by simp [h]), List.find?_cons_of_neg _ (by simp [h]),
            List.find?_cons_of_neg _ (by simp [h]), ih]

theorem updateAccountBalance_cartoes (accountId : Nat) (v : ℚ) (op : Op) (db : Db) :
    (updateAccountBalance accountId v op db).cartoes = db.cartoes := by
  unfold updateAccountBalance
  rcases h : findConta db accountId with _ | c <;> simp only [h]

theorem updateAccountBalance_orcamentos (accountId : Nat) (v : ℚ) (op : Op) (db : Db) :
    (updateAccountBalance accountId v op db).orcamentos = db.orcamentos := by
  unfold updateAccountBalance
  rcases h : findConta db accountId with _ | c <;> simp only [h]

theorem updateAccountBalance_despesas (accountId : Nat) (v : ℚ) (op : Op) (db : Db) :
    (updateAccountBalance accountId v op db).despesas = db.despesas := by
  unfold updateAccountBalance
  rcases h : findConta db accountId with _ | c <;> simp only [h]

theorem updateAccountBalance_receitas (accountId : Nat) (v : ℚ) (op : Op) (db : Db) :
    (updateAccountBalance accountId v op db).receitas = db.receitas := by
  unfold updateAccountBalance
  rcases h : findConta db accountId with _ | c <;> simp only [h]

theorem updateOrcamento_contas (tz : Int) (u : Nat) (dt : GDate) (v : ℚ) (tp : Tipo) (op : Op) (db : Db) :
    (updateOrcamento tz u dt v tp op db).contas = db.contas := by
  unfold updateOrcamento
  rcases h : findOrcamento db u (periodKeyOf tz dt).1 (periodKeyOf tz dt).2 with _ | o <;>
    simp only [h]

theorem updateOrcamento_cartoes (tz : Int) (u : Nat) (dt : GDate) (v : ℚ) (tp : Tipo) (op : Op) (db : Db) :
    (updateOrcamento tz u dt v tp op db).cartoes = db.cartoes := by
  unfold updateOrcamento
  rcases h : findOrcamento db u (periodKeyOf tz dt).1 (periodKeyOf tz dt).2 with _ | o <;>
    simp only [h]

theorem updateOrcamento_despesas (tz : Int) (u : Nat) (dt : GDate) (v : ℚ) (tp : Tipo) (op : Op) (db : Db) :
    (updateOrcamento tz u dt v tp op db).despesas = db.despesas := by
  unfold updateOrcamento
  rcases h : findOrcamento db u (periodKeyOf tz dt).1 (periodKeyOf tz dt).2 with _ | o <;>
    simp only [h]

theorem updateOrcamento_receitas (tz : Int) (u : Nat) (dt : GDate) (v : ℚ) (tp : Tipo) (op : Op) (db : Db) :
    (updateOrcamento tz u dt v tp op db).receitas = db.receitas := by
  unfold updateOrcamento
  rcases h : findOrcamento db u (periodKeyOf tz dt).1 (periodKeyOf tz dt).2 with _ | o <;>
    simp only [h]

/-! ### The month-range filter of `recalcular` agrees with calendar-month
membership on well-formed dates -/

theorem inPeriodo_eq_month (m y : Nat) (d : GDate) (hd : ValidDate d) :
    inPeriodo ⟨y, m, 1⟩ ⟨y, m, daysInMonth y m⟩ d = (d.mes == m && d.ano == y) := by
  obtain ⟨h1, h2, h3, h4⟩ := hd
  have key : (GDate.le ⟨y, m, 1⟩ d ∧ GDate.le d ⟨y, m, daysInMonth y m⟩) ↔ (d.mes = m ∧ d.ano = y) := by
    unfold GDate.le
    dsimp only
    constructor
    · rintro ⟨ha, hb⟩
      omega
    · rintro ⟨rfl, rfl⟩
      omega
  rw [Bool.eq_iff_iff]
  simp only [inPeriodo, Bool.and_eq_true, decide_eq_true_eq, beq_iff_eq]
  exact key

theorem recalcReceitaTotal_eq_month (db : Db) (u m y : Nat)
    (hR : ∀ r ∈ db.receitas, ValidDate r.data_receita) :
    recalcReceitaTotal db u m y
      = ((db.receitas.filter (fun r =>
            r.user_id == u && r.status == Status.confirmada && r.ativo
              && r.data_receita.mes == m && r.data_receita.ano == y)).map
          (fun r => r.valor)).sum := by
  unfold recalcReceitaTotal
  rw [List.filter_congr (fun r hr => ?_)]
  rw [inPeriodo_eq_month m y r.data_receita (hR r hr)]
  ac_rfl

theorem recalcDespesaTotal_eq_month (db : Db) (u m y : Nat)
    (hD : ∀ d ∈ db.despesas, ValidDate d.data_despesa) :
    recalcDespesaTotal db u m y
      = ((db.despesas.filter (fun d =>
            d.user_id == u && d.status == Status.confirmada && d.ativo
              && d.data_despesa.mes == m && d.data_despesa.ano == y)).map
          (fun d => d.valor)).sum := by
  unfold recalcDespesaTotal
  rw [List.filter_congr (fun d hd => ?_)]
  rw [inPeriodo_eq_month m y d.data_despesa (hD d hd)]
  ac_rfl

/-! ### Proof-only description of the row produced by `recalcular` -/

/-- Proof helper (not part of the embedding): the row that
`Orcamento.recalcular` reports and stores. -/
def recalcRow (u m y : Nat) (db : Db) : OrcamentoRow :=
  match findOrcamento db u m y with
  | some orc =>
      { orc with receita_total := recalcReceitaTotal db u m y,
                 despesa_total := recalcDespesaTotal db u m y,
                 saldo_atual := recalcReceitaTotal db u m y - recalcDespesaTotal db u m y }
  | none =>
      { user_id := u, mes := m, ano := y,
        receita_total := recalcReceitaTotal db u m y,
        despesa_total := recalcDespesaTotal db u m y,
        saldo_atual := recalcReceitaTotal db u m y - recalcDespesaTotal db u m y,
        meta_economia := 0 }

theorem recalc_fst (u m y : Nat) (db : Db) :
    (Orcamento.recalcular u m y db).1 = { orcamento := some (recalcRow u m y db), error := none } := by
  unfold Orcamento.recalcular recalcRow
  cases findOrcamento db u m y <;> rfl

theorem recalc_receitas (u m y : Nat) (db : Db) :
    ((Orcamento.recalcular u m y db).2).receitas = db.receitas := by
  unfold Orcamento.recalcular
  cases findOrcamento db u m y <;> rfl

theorem recalc_despesas (u m y : Nat) (db : Db) :
    ((Orcamento.recalcular u m y db).2).despesas = db.despesas := by
  unfold Orcamento.recalcular
  cases findOrcamento db u m y <;> rfl

theorem recalcReceitaTotal_stable (u m y : Nat) (db : Db) :
    recalcReceitaTotal ((Orcamento.recalcular u m y db).2) u m y = recalcReceitaTotal db u m y := by
  unfold recalcReceitaTotal
  rw [recalc_receitas]

theorem recalcDespesaTotal_stable (u m y : Nat) (db : Db) :
    recalcDespesaTotal ((Orcamento.recalcular u m y db).2) u m y = recalcDespesaTotal db u m y := by
  unfold recalcDespesaTotal
  rw [recalc_despesas]

theorem orcKey_recalcRow (u m y : Nat) (db : Db) : orcKey u m y (recalcRow u m y db) = true := by
  unfold recalcRow
  cases horc : findOrcamento db u m y with
  | some orc =>
      have := List.find?_some horc
      simpa [orcKey] using this
  | none => simp [orcKey]

theorem findOrcamento_after_recalc (u m y : Nat) (db : Db) :
    findOrcamento ((Orcamento.recalcular u m y db).2) u m y = some (recalcRow u m y db) := by
  cases horc : findOrcamento db u m y with
  | some orc =>
      simp only [Orcamento.recalcular, recalcRow, horc]
      unfold findOrcamento at horc ⊢
      dsimp only
      rw [find_update_eq (orcKey u m y)
        (fun o => { o with receita_total := recalcReceitaTotal db u m y,
                           despesa_total := recalcDespesaTotal db u m y,
                           saldo_atual := recalcReceitaTotal db u m y - recalcDespesaTotal db u m y })
        (fun x hx => hx) db.orcamentos, horc]
      rfl
  | none =>
      simp only [Orcamento.recalcular, recalcRow, horc]
      unfold findOrcamento at horc ⊢
      dsimp only
      rw [List.find?_append, horc]
      simp [orcKey]

theorem recalcRow_stable (u m y : Nat) (db : Db) :
    recalcRow u m y ((Orcamento.recalcular u m y db).2) = recalcRow u m y db := by
  conv_lhs => rw [recalcRow]
  rw [findOrcamento_after_recalc, recalcReceitaTotal_stable, recalcDespesaTotal_stable]
  unfold recalcRow
  cases findOrcamento db u m y <;> rfl

/-! ### Claim C1 -/

/-- Scenario for C1: one budget row with `receita_total = 100`,
`despesa_total = 50`, `saldo_atual = 50` (the invariant holds). -/
def C1db0 : Db :=
  { contas := [], cartoes := [], despesas := [], receitas := [],
    orcamentos := [{ user_id := 7, mes := 3, ano := 2024,
                     receita_total := 100, despesa_total := 50, saldo_atual := 50,
                     meta_economia := 0 }],
    nextDespesaId := 1, nextReceitaId := 1 }

/-- C1 after subtracting an income of 100 from the period. -/
def C1db1 : Db := updateOrcamento 0 7 ⟨2024, 3, 15⟩ 100 Tipo.receita Op.subtract C1db0

/-- Claim C1: the stored `saldo_atual` is claimed to equal
`receita_total - despesa_total` after every successful mutation via
`updateOrcamento`.  The code violates this: subtracting an income of 100 from
a period whose income total is 100 stores `receita_total = 0` but, because the
JavaScript `||` fallback treats the freshly computed total `0` as absent,
recomputes `saldo_atual` from the stale total `100`, storing
`saldo_atual = 50 ≠ 0 - 50`. -/
theorem updateOrcamento_breaks_saldo_invariant :
    orcReceitaTotal C1db1 7 3 2024 = some 0
    ∧ orcDespesaTotal C1db1 7 3 2024 = some 50
    ∧ orcSaldoAtual C1db1 7 3 2024 = some 50
    ∧ ¬ ((50 : ℚ) = 0 - 50) := by
  refine ⟨?_, ?_, ?_, by norm_num⟩ <;>
    (simp [C1db1, C1db0, updateOrcamento, periodKeyOf, localCivilDate, findOrcamento,
      orcKey, jsOr, orcReceitaTotal, orcDespesaTotal, orcSaldoAtual, List.find?] <;> norm_num)

/-! ### Claim C2 -/

/-- Claim C2: `Orcamento.recalcular` run twice in a row reports identical
totals both times, and those totals equal the direct sum of `valor` over the
owner's active, confirmed transactions dated in the month (incomes into the
income total, expenses into the expense total, net equal to their
difference). -/
theorem recalcular_idempotent_and_exact (db : Db) (u m y : Nat)
    (hR : ∀ r ∈ db.receitas, ValidDate r.data_receita)
    (hD : ∀ d ∈ db.despesas, ValidDate d.data_despesa) :
    (Orcamento.recalcular u m y ((Orcamento.recalcular u m y db).2)).1
        = (Orcamento.recalcular u m y db).1
    ∧ ∃ orc : OrcamentoRow,
        ((Orcamento.recalcular u m y db).1).orcamento = some orc
        ∧ orc.receita_total = ((db.receitas.filter (fun r =>
              r.user_id == u && r.status == Status.confirmada && r.ativo
                && r.data_receita.mes == m && r.data_receita.ano == y)).map
            (fun r => r.valor)).sum
        ∧ orc.despesa_total = ((db.despesas.filter (fun d =>
              d.user_id == u && d.status == Status.confirmada && d.ativo
                && d.data_despesa.mes == m && d.data_despesa.ano == y)).map
            (fun d => d.valor)).sum
        ∧ orc.saldo_atual = orc.receita_total - orc.despesa_total := by
  constructor
  · rw [recalc_fst, recalc_fst, recalcRow_stable]
  · refine ⟨recalcRow u m y db, ?_, ?_, ?_, ?_⟩
    · rw [recalc_fst]
    · rw [← recalcReceitaTotal_eq_month db u m y hR]
      unfold recalcRow
      cases findOrcamento db u m y <;> rfl
    · rw [← recalcDespesaTotal_eq_month db u m y hD]
      unfold recalcRow
      cases findOrcamento db u m y <;> rfl
    · unfold recalcRow
      cases findOrcamento db u m y <;> rfl

/-- Concrete state for the C2 witness: two incomes (one pending) and one
confirmed expense in March 2024, no budget row yet. -/
def C2db : Db :=
  { contas := [], cartoes := [],
    despesas := [{ id := 1, user_id := 7, account_id := 1, valor := 30,
                   data_despesa := ⟨2024, 3, 5⟩, status := Status.confirmada,
                   ativo := true, eh_pagamento_fatura := false, cartao_origem_id := none }],
    receitas := [{ id := 1, user_id := 7, account_id := 1, valor := 100,
                   data_receita := ⟨2024, 3, 10⟩, status := Status.confirmada, ativo := true },
                 { id := 2, user_id := 7, account_id := 1, valor := 40,
                   data_receita := ⟨2024, 3, 9⟩, status := Status.pendente, ativo := true }],
    orcamentos := [], nextDespesaId := 2, nextReceitaId := 3 }

theorem recalcular_idempotent_and_exact_witness :
    (∀ r ∈ C2db.receitas, ValidDate r.data_receita)
    ∧ (∀ d ∈ C2db.despesas, ValidDate d.data_despesa)
    ∧ ((Orcamento.recalcular 7 3 2024 ((Orcamento.recalcular 7 3 2024 C2db).2)).1
          = (Orcamento.recalcular 7 3 2024 C2db).1
      ∧ ∃ orc : OrcamentoRow,
          ((Orcamento.recalcular 7 3 2024 C2db).1).orcamento = some orc
          ∧ orc.receita_total = ((C2db.receitas.filter (fun r =>
                r.user_id == 7 && r.status == Status.confirmada && r.ativo
                  && r.data_receita.mes == 3 && r.data_receita.ano == 2024)).map
              (fun r => r.valor)).sum
          ∧ orc.despesa_total = ((C2db.despesas.filter (fun d =>
                d.user_id == 7 && d.status == Status.confirmada && d.ativo
                  && d.data_despesa.mes == 3 && d.data_despesa.ano == 2024)).map
              (fun d => d.valor)).sum
          ∧ orc.saldo_atual = orc.receita_total - orc.despesa_total) :=
  ⟨by decide, by decide, recalcular_idempotent_and_exact C2db 7 3 2024 (by decide) (by decide)⟩

/-! ### Claim C3 -/

theorem findCartao_after_pagamento (db : Db) (d : DespesaRow) (cid : Nat) (a t : ℚ)
    (hc : findCartao db cid = some { account_id := cid, limite_disponivel := a, limite_total := t })
    (hd2 : d.cartao_origem_id = some cid) :
    findCartao (Despesa.processarPagamentoFatura d db) cid
      = some { account_id := cid, limite_disponivel := min (a + d.valor) t, limite_total := t } := by
  have h1 : findCartao (updateAccountBalance d.account_id d.valor Op.subtract db) cid
      = some { account_id := cid, limite_disponivel := a, limite_total := t } := by
    unfold findCartao
    rw [updateAccountBalance_cartoes]
    exact hc
  unfold Despesa.processarPagamentoFatura
  rw [hd2]
  simp only [h1]
  unfold findCartao at h1 ⊢
  dsimp only
  rw [updateAccountBalance_cartoes] at h1 ⊢
  rw [find_update_eq (fun c => c.account_id == cid)
    (fun c => { c with limite_disponivel := min (a + d.valor) t }) (fun x hx => hx) db.cartoes, h1]
  rfl

/-- Claim C3 (amended): for an invoice-payment expense against a card with
available limit `a` and total limit `t`, the forward step stores
`min(a + valor, t)` and the reverse step then stores
`max(min(a + valor, t) - valor, 0)`; when the forward step clamped
(`t < a + valor`) **and the prior available limit was positive**, the
composite leaves the limit strictly lower than before.  (With `a = 0` the
composite returns to `0`, so the unconditional claim fails; see the
counterexample.) -/
theorem invoice_clamp_asymmetry (tz : Int) (u cid : Nat) (db : Db) (a t : ℚ) (d : DespesaRow)
    (hc : findCartao db cid = some { account_id := cid, limite_disponivel := a, limite_total := t })
    (hd1 : d.eh_pagamento_fatura = true) (hd2 : d.cartao_origem_id = some cid) :
    cartaoDisp (Despesa.processarPagamentoFatura d db) cid = some (min (a + d.valor) t)
    ∧ cartaoDisp (Despesa.reverterDespesa tz d u (Despesa.processarPagamentoFatura d db)) cid
        = some (max (min (a + d.valor) t - d.valor) 0)
    ∧ (t < a + d.valor → 0 < a → max (min (a + d.valor) t - d.valor) 0 < a) := by
  have hfwd := findCartao_after_pagamento db d cid a t hc hd2
  refine ⟨?_, ?_, ?_⟩
  · unfold cartaoDisp
    rw [hfwd]
    rfl
  · have h2 : findCartao (updateAccountBalance d.account_id d.valor Op.add
        (Despesa.processarPagamentoFatura d db)) cid
        = some { account_id := cid, limite_disponivel := min (a + d.valor) t, limite_total := t } := by
      unfold findCartao
      rw [updateAccountBalance_cartoes]
      exact hfwd
    unfold Despesa.reverterDespesa
    rw [hd1, hd2]
    simp only [Option.isSome_some, Bool.and_self, if_true, h2]
    unfold cartaoDisp findCartao
    rw [updateOrcamento_cartoes]
    dsimp only
    unfold findCartao at h2
    rw [updateAccountBalance_cartoes] at h2
    rw [updateAccountBalance_cartoes]
    rw [find_update_eq (fun c => c.account_id == cid)
      (fun c => { c with limite_disponivel := max (min (a + d.valor) t - d.valor) 0 })
      (fun x hx => hx) (Despesa.processarPagamentoFatura d db).cartoes, h2]
    rfl
  · intro h1 h2
    rw [min_eq_right h1.le]
    exact max_lt (by linarith) h2

/-- State for the C3 counterexample: the card is fully used up
(`limite_disponivel = 0`, `limite_total = 5000`). -/
def C3db : Db :=
  { contas := [{ id := 1, saldo_atual := 2000 }],
    cartoes := [{ account_id := 9, limite_disponivel := 0, limite_total := 5000 }],
    despesas := [], receitas := [], orcamentos := [],
    nextDespesaId := 1, nextReceitaId := 1 }

/-- An invoice payment of 6000 against that card. -/
def C3despesa : DespesaRow :=
  { id := 1, user_id := 7, account_id := 1, valor := 6000,
    data_despesa := ⟨2024, 3, 15⟩, status := Status.confirmada, ativo := true,
    eh_pagamento_fatura := true, cartao_origem_id := some 9 }

/-- Claim C3 counterexample: with prior available limit 0 and a payment of
6000 against a total limit of 5000 the forward step clamps
(`0 + 6000 > 5000`), yet forward followed by reverse returns the available
limit to exactly its prior value 0 — not strictly lower as the claim states
for every clamped payment. -/
theorem invoice_clamp_reversal_not_strict_at_zero :
    cartaoDisp C3db 9 = some 0
    ∧ ((0 : ℚ) + 6000 > 5000)
    ∧ cartaoDisp (Despesa.reverterDespesa 0 C3despesa 7
        (Despesa.processarPagamentoFatura C3despesa C3db)) 9 = some 0
    ∧ ¬ ((0 : ℚ) < 0) := by
  refine ⟨by simp [C3db, cartaoDisp, findCartao, List.find?], by norm_num, ?_, by norm_num⟩
  simp [C3db, C3despesa, cartaoDisp, findCartao, Despesa.processarPagamentoFatura,
    Despesa.reverterDespesa, updateAccountBalance, updateOrcamento, findConta, findOrcamento,
    orcKey, jsOr, periodKeyOf, localCivilDate, List.find?]

/-- State for the C3 witness: the spec's own numbers
(total 5000, available 3000, funding account with 2000). -/
def C3wdb : Db :=
  { contas := [{ id := 1, saldo_atual := 2000 }],
    cartoes := [{ account_id := 9, limite_disponivel := 3000, limite_total := 5000 }],
    despesas := [], receitas := [], orcamentos := [],
    nextDespesaId := 1, nextReceitaId := 1 }

/-- An invoice payment of 3000 against that card. -/
def C3wdespesa : DespesaRow :=
  { id := 1, user_id := 7, account_id := 1, valor := 3000,
    data_despesa := ⟨2024, 3, 15⟩, status := Status.confirmada, ativo := true,
    eh_pagamento_fatura := true, cartao_origem_id := some 9 }

theorem invoice_clamp_asymmetry_witness :
    findCartao C3wdb 9 = some { account_id := 9, limite_disponivel := 3000, limite_total := 5000 }
    ∧ C3wdespesa.eh_pagamento_fatura = true
    ∧ C3wdespesa.cartao_origem_id = some 9
    ∧ (cartaoDisp (Despesa.processarPagamentoFatura C3wdespesa C3wdb) 9
          = some (min ((3000 : ℚ) + C3wdespesa.valor) 5000)
      ∧ cartaoDisp (Despesa.reverterDespesa 0 C3wdespesa 7
            (Despesa.processarPagamentoFatura C3wdespesa C3wdb)) 9
          = some (max (min ((3000 : ℚ) + C3wdespesa.valor) 5000 - C3wdespesa.valor) 0)
      ∧ ((5000 : ℚ) < 3000 + C3wdespesa.valor → (0 : ℚ) < 3000 →
          max (min ((3000 : ℚ) + C3wdespesa.valor) 5000 - C3wdespesa.valor) 0 < 3000)) :=
  ⟨rfl, rfl, rfl, invoice_clamp_asymmetry 0 7 9 C3wdb 3000 5000 C3wdespesa rfl rfl rfl⟩

/-! ### Claim C4 -/

/-- Scenario for C4 (d): one account with balance `b`, nothing else. -/
def C4db (b : ℚ) : Db :=
  { contas := [{ id := 1, saldo_atual := b }], cartoes := [], despesas := [], receitas := [],
    orcamentos := [], nextDespesaId := 1, nextReceitaId := 1 }

/-- C4 (d): after creating a pending expense of 300 against account 1. -/
def C4afterCreate (b : ℚ) : Db :=
  (Despesa.create 0 true 7
    { account_id := 1, valor := 300, data_despesa := ⟨2024, 3, 15⟩,
      status := Status.pendente, eh_pagamento_fatura := false, cartao_origem_id := none }
    (C4db b)).2

/-- C4 (d): after updating that expense to `confirmada`. -/
def C4afterConfirm (b : ℚ) : Db :=
  (Despesa.update 0 true 1 7 { status := some Status.confirmada } (C4afterCreate b)).2

/-- C4 (d): after updating it back to `pendente`. -/
def C4afterPending (b : ℚ) : Db :=
  (Despesa.update 0 true 1 7 { status := some Status.pendente } (C4afterConfirm b)).2

/-- Claim C4: status transitions drive the monetary effect exactly, for both
transaction variants: (a) creating a non-confirmed expense changes no
account, card-limit or budget row; (b) an expense update from non-confirmed
to confirmed applies the effect using the new values (`processarDespesa` on
the patched row); (c) an expense update from confirmed to non-confirmed
reverses the effect using the old values (`reverterDespesa` on the pre-update
row); (a'), (b'), (c') the same three facts for the income variant, whose
transition logic is implemented separately and inline in
`Receita.handleBalanceUpdates` (credit + budget increment with the new
values, debit + budget decrement with the old values); (d) for a pending
expense of 300 against an account with balance `b`, confirming and then
un-confirming it leaves the balance net unchanged across the three
operations. -/
theorem transaction_status_transitions (tz : Int) (u i : Nat) (db : Db)
    (inp : DespesaInput) (p : DespesaPatch) (atual : DespesaRow)
    (rinp : ReceitaInput) (rp : ReceitaPatch) (ratual : ReceitaRow) (b : ℚ) :
    (inp.status ≠ Status.confirmada →
      ((Despesa.create tz true u inp db).2.contas = db.contas
        ∧ (Despesa.create tz true u inp db).2.cartoes = db.cartoes
        ∧ (Despesa.create tz true u inp db).2.orcamentos = db.orcamentos))
    ∧ (Despesa.findById i u db = some atual → atual.status ≠ Status.confirmada →
        (Despesa.applyPatch p atual).status = Status.confirmada →
        (Despesa.update tz true i u p db).2
          = Despesa.processarDespesa tz (Despesa.applyPatch p atual) u
              { db with despesas := db.despesas.map (fun d =>
                  if d.id == i && d.user_id == u then Despesa.applyPatch p d else d) })
    ∧ (Despesa.findById i u db = some atual → atual.status = Status.confirmada →
        (Despesa.applyPatch p atual).status ≠ Status.confirmada →
        (Despesa.update tz true i u p db).2
          = Despesa.reverterDespesa tz atual u
              { db with despesas := db.despesas.map (fun d =>
                  if d.id == i && d.user_id == u then Despesa.applyPatch p d else d) })
    ∧ (rinp.status ≠ Status.confirmada →
      ((Receita.create tz true u rinp db).2.contas = db.contas
        ∧ (Receita.create tz true u rinp db).2.cartoes = db.cartoes
        ∧ (Receita.create tz true u rinp db).2.orcamentos = db.orcamentos))
    ∧ (Receita.findById i u db = some ratual → ratual.status ≠ Status.confirmada →
        (Receita.applyPatch rp ratual).status = Status.confirmada →
        (Receita.update tz true i u rp db).2
          = updateOrcamento tz u (Receita.applyPatch rp ratual).data_receita
              (Receita.applyPatch rp ratual).valor Tipo.receita Op.add
              (updateAccountBalance (Receita.applyPatch rp ratual).account_id
                (Receita.applyPatch rp ratual).valor Op.add
                { db with receitas := db.receitas.map (fun r =>
                    if r.id == i && r.user_id == u then Receita.applyPatch rp r else r) }))
    ∧ (Receita.findById i u db = some ratual → ratual.status = Status.confirmada →
        (Receita.applyPatch rp ratual).status ≠ Status.confirmada →
        (Receita.update tz true i u rp db).2
          = updateOrcamento tz u ratual.data_receita ratual.valor Tipo.receita Op.subtract
              (updateAccountBalance ratual.account_id ratual.valor Op.subtract
                { db with receitas := db.receitas.map (fun r =>
                    if r.id == i && r.user_id == u then Receita.applyPatch rp r else r) }))
    ∧ (contaSaldo (C4afterCreate b) 1 = some b
        ∧ contaSaldo (C4afterConfirm b) 1 = some (b - 300)
        ∧ contaSaldo (C4afterPending b) 1 = some b) := by
  refine ⟨?_, ?_, ?_, ?_, ?_, ?_, ?_, ?_, ?_⟩
  · intro h
    simp [Despesa.create, h]
  · intro hf h1 h2
    have hc1 : ¬(atual.status = Status.confirmada ∧ (Despesa.applyPatch p atual).status ≠ Status.confirmada) :=
      fun hc => h1 hc.1
    have hc3 : ¬(atual.status = Status.confirmada ∧ (Despesa.applyPatch p atual).status = Status.confirmada) :=
      fun hc => h1 hc.1
    simp only [Despesa.update, hf, Despesa.handleBalanceUpdates, if_neg hc1,
      if_pos (And.intro h1 h2), if_neg hc3]
    simp
  · intro hf h1 h2
    have hc2 : ¬(atual.status ≠ Status.confirmada ∧ (Despesa.applyPatch p atual).status = Status.confirmada) :=
      fun hc => hc.1 h1
    have hc3 : ¬(atual.status = Status.confirmada ∧ (Despesa.applyPatch p atual).status = Status.confirmada) :=
      fun hc => h2 hc.2
    simp only [Despesa.update, hf, Despesa.handleBalanceUpdates,
      if_pos (And.intro h1 h2), if_neg hc2, if_neg hc3]
    simp
  · intro h
    simp [Receita.create, h]
  · intro hf h1 h2
    have hc1 : ¬(ratual.status = Status.confirmada ∧ (Receita.applyPatch rp ratual).status ≠ Status.confirmada) :=
      fun hc => h1 hc.1
    have hc3 : ¬(ratual.status = Status.confirmada ∧ (Receita.applyPatch rp ratual).status = Status.confirmada) :=
      fun hc => h1 hc.1
    simp only [Receita.update, hf, Receita.handleBalanceUpdates, if_neg hc1,
      if_pos (And.intro h1 h2), if_neg hc3]
    simp
  · intro hf h1 h2
    have hc2 : ¬(ratual.status ≠ Status.confirmada ∧ (Receita.applyPatch rp ratual).status = Status.confirmada) :=
      fun hc => hc.1 h1
    have hc3 : ¬(ratual.status = Status.confirmada ∧ (Receita.applyPatch rp ratual).status = Status.confirmada) :=
      fun hc => h2 hc.2
    simp only [Receita.update, hf, Receita.handleBalanceUpdates,
      if_pos (And.intro h1 h2), if_neg hc2, if_neg hc3]
    simp
  · simp [C4afterCreate, C4db, Despesa.create, Despesa.processarDespesa, contaSaldo, findConta,
      List.find?]
  · simp [C4afterConfirm, C4afterCreate, C4db, Despesa.create, Despesa.update, Despesa.findById,
      Despesa.applyPatch, Despesa.handleBalanceUpdates, Despesa.processarDespesa,
      Despesa.reverterDespesa, Despesa.processarPagamentoFatura, updateAccountBalance,
      updateOrcamento, findConta, findOrcamento, findCartao, orcKey, jsOr, periodKeyOf,
      localCivilDate, contaSaldo, List.find?]
  · simp [C4afterPending, C4afterConfirm, C4afterCreate, C4db, Despesa.create, Despesa.update,
      Despesa.findById, Despesa.applyPatch, Despesa.handleBalanceUpdates, Despesa.processarDespesa,
      Despesa.reverterDespesa, Despesa.processarPagamentoFatura, updateAccountBalance,
      updateOrcamento, findConta, findOrcamento, findCartao, orcKey, jsOr, periodKeyOf,
      localCivilDate, contaSaldo, List.find?]

/-- A stored pending expense row for the C4 witness. -/
def C4wrowPend : DespesaRow :=
  { id := 1, user_id := 7, account_id := 1, valor := 120, data_despesa := ⟨2024, 3, 15⟩,
    status := Status.pendente, ativo := true, eh_pagamento_fatura := false,
    cartao_origem_id := none }

/-- The same row with status `confirmada`. -/
def C4wrowConf : DespesaRow :=
  { id := 1, user_id := 7, account_id := 1, valor := 120, data_despesa := ⟨2024, 3, 15⟩,
    status := Status.confirmada, ativo := true, eh_pagamento_fatura := false,
    cartao_origem_id := none }

def C4wdbPend : Db :=
  { contas := [{ id := 1, saldo_atual := 400 }], cartoes := [], despesas := [C4wrowPend],
    receitas := [], orcamentos := [], nextDespesaId := 2, nextReceitaId := 1 }

def C4wdbConf : Db :=
  { contas := [{ id := 1, saldo_atual := 400 }], cartoes := [], despesas := [C4wrowConf],
    receitas := [], orcamentos := [], nextDespesaId := 2, nextReceitaId := 1 }

def C4winp : DespesaInput :=
  { account_id := 1, valor := 50, data_despesa := ⟨2024, 3, 20⟩, status := Status.pendente,
    eh_pagamento_fatura := false, cartao_origem_id := none }

def C4wpatchConf : DespesaPatch := { status := some Status.confirmada }

def C4wpatchPend : DespesaPatch := { status := some Status.pendente }

/-- A stored pending income row for the C4 witness. -/
def C4wrrowPend : ReceitaRow :=
  { id := 1, user_id := 7, account_id := 1, valor := 90, data_receita := ⟨2024, 3, 15⟩,
    status := Status.pendente, ativo := true }

/-- The same income row with status `confirmada`. -/
def C4wrrowConf : ReceitaRow :=
  { id := 1, user_id := 7, account_id := 1, valor := 90, data_receita := ⟨2024, 3, 15⟩,
    status := Status.confirmada, ativo := true }

def C4wrdbPend : Db :=
  { contas := [{ id := 1, saldo_atual := 400 }], cartoes := [], despesas := [],
    receitas := [C4wrrowPend], orcamentos := [], nextDespesaId := 1, nextReceitaId := 2 }

def C4wrdbConf : Db :=
  { contas := [{ id := 1, saldo_atual := 400 }], cartoes := [], despesas := [],
    receitas := [C4wrrowConf], orcamentos := [], nextDespesaId := 1, nextReceitaId := 2 }

def C4wrinp : ReceitaInput :=
  { account_id := 1, valor := 45, data_receita := ⟨2024, 3, 20⟩, status := Status.pendente }

def C4wrpatchConf : ReceitaPatch := { status := some Status.confirmada }

def C4wrpatchPend : ReceitaPatch := { status := some Status.pendente }

theorem transaction_status_transitions_witness :
    ((Despesa.create 0 true 7 C4winp C4wdbPend).2.contas = C4wdbPend.contas
      ∧ (Despesa.create 0 true 7 C4winp C4wdbPend).2.cartoes = C4wdbPend.cartoes
      ∧ (Despesa.create 0 true 7 C4winp C4wdbPend).2.orcamentos = C4wdbPend.orcamentos)
    ∧ ((Despesa.update 0 true 1 7 C4wpatchConf C4wdbPend).2
        = Despesa.processarDespesa 0 (Despesa.applyPatch C4wpatchConf C4wrowPend) 7
            { C4wdbPend with despesas := C4wdbPend.despesas.map (fun d =>
                if d.id == 1 && d.user_id == 7 then Despesa.applyPatch C4wpatchConf d else d) })
    ∧ ((Despesa.update 0 true 1 7 C4wpatchPend C4wdbConf).2
        = Despesa.reverterDespesa 0 C4wrowConf 7
            { C4wdbConf with despesas := C4wdbConf.despesas.map (fun d =>
                if d.id == 1 && d.user_id == 7 then Despesa.applyPatch C4wpatchPend d else d) })
    ∧ ((Receita.create 0 true 7 C4wrinp C4wrdbPend).2.contas = C4wrdbPend.contas
        ∧ (Receita.create 0 true 7 C4wrinp C4wrdbPend).2.cartoes = C4wrdbPend.cartoes
        ∧ (Receita.create 0 true 7 C4wrinp C4wrdbPend).2.orcamentos = C4wrdbPend.orcamentos)
    ∧ ((Receita.update 0 true 1 7 C4wrpatchConf C4wrdbPend).2
        = updateOrcamento 0 7 (Receita.applyPatch C4wrpatchConf C4wrrowPend).data_receita
            (Receita.applyPatch C4wrpatchConf C4wrrowPend).valor Tipo.receita Op.add
            (updateAccountBalance (Receita.applyPatch C4wrpatchConf C4wrrowPend).account_id
              (Receita.applyPatch C4wrpatchConf C4wrrowPend).valor Op.add
              { C4wrdbPend with receitas := C4wrdbPend.receitas.map (fun r =>
                  if r.id == 1 && r.user_id == 7 then Receita.applyPatch C4wrpatchConf r else r) }))
    ∧ ((Receita.update 0 true 1 7 C4wrpatchPend C4wrdbConf).2
        = updateOrcamento 0 7 C4wrrowConf.data_receita C4wrrowConf.valor Tipo.receita Op.subtract
            (updateAccountBalance C4wrrowConf.account_id C4wrrowConf.valor Op.subtract
              { C4wrdbConf with receitas := C4wrdbConf.receitas.map (fun r =>
                  if r.id == 1 && r.user_id == 7 then Receita.applyPatch C4wrpatchPend r else r) }))
    ∧ (contaSaldo (C4afterCreate 500) 1 = some 500
        ∧ contaSaldo (C4afterConfirm 500) 1 = some (500 - 300)
        ∧ contaSaldo (C4afterPending 500) 1 = some 500) := by
  refine ⟨?_, ?_, ?_, ?_, ?_, ?_, ?_⟩
  · exact (transaction_status_transitions 0 7 1 C4wdbPend C4winp C4wpatchConf C4wrowPend
      C4wrinp C4wrpatchConf C4wrrowPend 500).1 (by decide)
  · exact (transaction_status_transitions 0 7 1 C4wdbPend C4winp C4wpatchConf C4wrowPend
      C4wrinp C4wrpatchConf C4wrrowPend 500).2.1 rfl (by decide) (by decide)
  · exact (transaction_status_transitions 0 7 1 C4wdbConf C4winp C4wpatchPend C4wrowConf
      C4wrinp C4wrpatchConf C4wrrowPend 500).2.2.1 rfl (by decide) (by decide)
  · exact (transaction_status_transitions 0 7 1 C4wrdbPend C4winp C4wpatchConf C4wrowPend
      C4wrinp C4wrpatchConf C4wrrowPend 500).2.2.2.1 (by decide)
  · exact (transaction_status_transitions 0 7 1 C4wrdbPend C4winp C4wpatchConf C4wrowPend
      C4wrinp C4wrpatchConf C4wrrowPend 500).2.2.2.2.1 rfl (by decide) (by decide)
  · exact (transaction_status_transitions 0 7 1 C4wrdbConf C4winp C4wpatchConf C4wrowPend
      C4wrinp C4wrpatchPend C4wrrowConf 500).2.2.2.2.2.1 rfl (by decide) (by decide)
  · exact (transaction_status_transitions 0 7 1 C4wdbPend C4winp C4wpatchConf C4wrowPend
      C4wrinp C4wrpatchConf C4wrrowPend 500).2.2.2.2.2.2

/-! ### Claim C5 -/

/-- Scenario for C5: account 1 with balance 1000 and an existing March-2024
budget row with arbitrary prior totals. -/
def C5db (r0 e0 s0 g0 : ℚ) : Db :=
  { contas := [{ id := 1, saldo_atual := 1000 }], cartoes := [], despesas := [], receitas := [],
    orcamentos := [{ user_id := 7, mes := 3, ano := 2024, receita_total := r0,
                     despesa_total := e0, saldo_atual := s0, meta_economia := g0 }],
    nextDespesaId := 1, nextReceitaId := 1 }

/-- A confirmed non-invoice expense of 200 against account 1. -/
def C5inp : DespesaInput :=
  { account_id := 1, valor := 200, data_despesa := ⟨2024, 3, 15⟩, status := Status.confirmada,
    eh_pagamento_fatura := false, cartao_origem_id := none }

def C5afterCreate (r0 e0 s0 g0 : ℚ) : Db :=
  (Despesa.create 0 true 7 C5inp (C5db r0 e0 s0 g0)).2

def C5afterDelete (r0 e0 s0 g0 : ℚ) : Db :=
  (Despesa.delete 0 true 1 7 (C5afterCreate r0 e0 s0 g0)).2

/-- Claim C5: starting from account 1 with balance 1000, creating a confirmed
non-invoice expense of 200 leaves the balance at 800 and raises the period's
expense total by 200; soft-deleting that expense restores the balance to 1000
and the expense total to its prior value. -/
theorem despesa_create_delete_round_trip (r0 e0 s0 g0 : ℚ) :
    (Despesa.create 0 true 7 C5inp (C5db r0 e0 s0 g0)).1.error = none
    ∧ contaSaldo (C5afterCreate r0 e0 s0 g0) 1 = some 800
    ∧ orcDespesaTotal (C5afterCreate r0 e0 s0 g0) 7 3 2024 = some (e0 + 200)
    ∧ (Despesa.delete 0 true 1 7 (C5afterCreate r0 e0 s0 g0)).1.success = true
    ∧ contaSaldo (C5afterDelete r0 e0 s0 g0) 1 = some 1000
    ∧ orcDespesaTotal (C5afterDelete r0 e0 s0 g0) 7 3 2024 = some e0 := by
  refine ⟨?_, ?_, ?_, ?_, ?_, ?_⟩ <;>
    simp [C5afterDelete, C5afterCreate, C5db, C5inp, Despesa.create, Despesa.delete,
      Despesa.findById, Despesa.processarDespesa, Despesa.reverterDespesa,
      Despesa.processarPagamentoFatura, updateAccountBalance, updateOrcamento, findConta,
      findOrcamento, findCartao, orcKey, jsOr, periodKeyOf, localCivilDate, contaSaldo,
      orcDespesaTotal, List.find?] <;> norm_num

/-! ### Claim C6 -/

/-- A stored confirmed non-invoice expense of amount `vOld` on account 1. -/
def C6row (vOld : ℚ) : DespesaRow :=
  { id := 1, user_id := 7, account_id := 1, valor := vOld, data_despesa := ⟨2024, 3, 15⟩,
    status := Status.confirmada, ativo := true, eh_pagamento_fatura := false,
    cartao_origem_id := none }

/-- Scenario for C6, same-account edit: one account with balance `b`. -/
def C6db (b vOld r0 e0 s0 g0 : ℚ) : Db :=
  { contas := [{ id := 1, saldo_atual := b }], cartoes := [], despesas := [C6row vOld],
    receitas := [],
    orcamentos := [{ user_id := 7, mes := 3, ano := 2024, receita_total := r0,
                     despesa_total := e0, saldo_atual := s0, meta_economia := g0 }],
    nextDespesaId := 2, nextReceitaId := 1 }

/-- Scenario for C6, account-changing edit: accounts 1 and 2. -/
def C6db2 (bA bB vOld r0 e0 s0 g0 : ℚ) : Db :=
  { contas := [{ id := 1, saldo_atual := bA }, { id := 2, saldo_atual := bB }], cartoes := [],
    despesas := [C6row vOld], receitas := [],
    orcamentos := [{ user_id := 7, mes := 3, ano := 2024, receita_total := r0,
                     despesa_total := e0, saldo_atual := s0, meta_economia := g0 }],
    nextDespesaId := 2, nextReceitaId := 1 }

/-- Claim C6: editing a confirmed expense that stays confirmed reverses the
old effect and applies the new effect as two independent steps: for an amount
change on the same account the balance ends at
`balance_before + old_amount - new_amount`; when the account also changes,
the old account is credited the old amount and the new account debited the
new amount, independently. -/
theorem despesa_confirmed_edit_two_steps (b bA bB vOld vNew r0 e0 s0 g0 : ℚ) :
    contaSaldo ((Despesa.update 0 true 1 7 { valor := some vNew }
        (C6db b vOld r0 e0 s0 g0)).2) 1 = some (b + vOld - vNew)
    ∧ contaSaldo ((Despesa.update 0 true 1 7 { valor := some vNew, account_id := some 2 }
        (C6db2 bA bB vOld r0 e0 s0 g0)).2) 1 = some (bA + vOld)
    ∧ contaSaldo ((Despesa.update 0 true 1 7 { valor := some vNew, account_id := some 2 }
        (C6db2 bA bB vOld r0 e0 s0 g0)).2) 2 = some (bB - vNew) := by
  refine ⟨?_, ?_, ?_⟩ <;>
    simp [C6db, C6db2, C6row, Despesa.update, Despesa.findById, Despesa.applyPatch,
      Despesa.handleBalanceUpdates, Despesa.processarDespesa, Despesa.reverterDespesa,
      Despesa.processarPagamentoFatura, updateAccountBalance, updateOrcamento, findConta,
      findOrcamento, findCartao, orcKey, jsOr, periodKeyOf, localCivilDate, contaSaldo,
      List.find?]

/-! ### Claim C7 -/

theorem processarDespesa_contas_missing (tz : Int) (u : Nat) (d : DespesaRow) (db : Db)
    (hfat : d.eh_pagamento_fatura = false) (h : findConta db d.account_id = none) :
    (Despesa.processarDespesa tz d u db).contas = db.contas := by
  simp only [Despesa.processarDespesa]
  rw [updateOrcamento_contas, hfat, if_neg (by simp)]
  simp only [updateAccountBalance, h]

theorem reverterDespesa_contas_missing (tz : Int) (u : Nat) (d : DespesaRow) (db : Db)
    (hfat : d.eh_pagamento_fatura = false) (h : findConta db d.account_id = none) :
    (Despesa.reverterDespesa tz d u db).contas = db.contas := by
  simp only [Despesa.reverterDespesa]
  rw [updateOrcamento_contas, hfat, if_neg (by simp)]
  simp only [updateAccountBalance, h]

theorem handleBalanceUpdates_contas_missing (tz : Int) (u : Nat) (a n : DespesaRow) (db : Db)
    (hfa : a.eh_pagamento_fatura = false) (hfn : n.eh_pagamento_fatura = false)
    (haid : n.account_id = a.account_id)
    (h : findConta db a.account_id = none) :
    (Despesa.handleBalanceUpdates tz a n u db).contas = db.contas := by
  have hrev : ∀ db' : Db, db'.contas = db.contas →
      (Despesa.reverterDespesa tz a u db').contas = db.contas := by
    intro db' hdb
    have hh : findConta db' a.account_id = none := by
      unfold findConta at h ⊢
      rw [hdb]
      exact h
    rw [reverterDespesa_contas_missing tz u a db' hfa hh]
    exact hdb
  have hproc : ∀ db' : Db, db'.contas = db.contas →
      (Despesa.processarDespesa tz n u db').contas = db.contas := by
    intro db' hdb
    have hh : findConta db' n.account_id = none := by
      unfold findConta at h ⊢
      simp only [haid, hdb]
      exact h
    rw [processarDespesa_contas_missing tz u n db' hfn hh]
    exact hdb
  simp only [Despesa.handleBalanceUpdates]
  split_ifs <;>
    first
      | rfl
      | exact hrev _ rfl
      | exact hproc _ rfl
      | exact hproc _ (hrev _ rfl)
      | exact hproc _ (hrev _ (hrev _ rfl))
      | exact hproc _ (hrev _ (hproc _ rfl))
      | exact hproc _ (hrev _ (hproc _ (hrev _ rfl)))

/-- Claim C7: the balance-mutation step on an account that cannot be found is
a no-op that propagates no error: the account store is unchanged and the
enclosing create (of a confirmed non-invoice expense against that account),
update (of such a stored expense, with a patch that does not move it to
another account) and delete (of such a stored expense) still return success
with the account store untouched. -/
theorem updateAccountBalance_missing_account_noop (tz : Int) (u i j : Nat) (v : ℚ) (op : Op)
    (db : Db) (inp : DespesaInput) (p : DespesaPatch) (atual : DespesaRow)
    (h : findConta db i = none) :
    updateAccountBalance i v op db = db
    ∧ (inp.account_id = i → inp.eh_pagamento_fatura = false → inp.status = Status.confirmada →
        ((Despesa.create tz true u inp db).1.error = none
          ∧ (Despesa.create tz true u inp db).2.contas = db.contas))
    ∧ (Despesa.findById j u db = some atual → atual.account_id = i →
        atual.eh_pagamento_fatura = false → p.account_id = none →
        ((Despesa.update tz true j u p db).1.error = none
          ∧ (Despesa.update tz true j u p db).2.contas = db.contas))
    ∧ (Despesa.findById j u db = some atual → atual.account_id = i →
        atual.eh_pagamento_fatura = false → atual.status = Status.confirmada →
        ((Despesa.delete tz true j u db).1.success = true
          ∧ (Despesa.delete tz true j u db).2.contas = db.contas)) := by
  have h' : db.contas.find? (fun c => c.id == i) = none := h
  refine ⟨?_, ?_, ?_, ?_⟩
  · simp only [updateAccountBalance, h]
  · intro ha hfat hs
    constructor
    · simp [Despesa.create]
    · simp [Despesa.create, hs, hfat, ha, Despesa.processarDespesa, updateAccountBalance,
        findConta, h', updateOrcamento_contas]
  · intro hf ha hfat hpa
    constructor
    · simp [Despesa.update, hf]
    · have hn_fat : (Despesa.applyPatch p atual).eh_pagamento_fatura = false := hfat
      have hn_aid : (Despesa.applyPatch p atual).account_id = atual.account_id := by
        simp [Despesa.applyPatch, hpa]
      have hstep := handleBalanceUpdates_contas_missing tz u atual (Despesa.applyPatch p atual)
        { db with despesas := db.despesas.map (fun d =>
            if d.id == j && d.user_id == u then Despesa.applyPatch p d else d) }
        hfat hn_fat hn_aid (by rw [ha]; exact h)
      simp only [Despesa.update, hf]
      exact hstep
  · intro hf ha hfat hs
    constructor
    · simp [Despesa.delete, hf]
    · simp [Despesa.delete, hf, hs, hfat, ha, Despesa.reverterDespesa, updateAccountBalance,
        findConta, h', updateOrcamento_contas]

/-- A stored confirmed expense referencing the missing account 5. -/
def C7row : DespesaRow :=
  { id := 1, user_id := 7, account_id := 5, valor := 60, data_despesa := ⟨2024, 3, 15⟩,
    status := Status.confirmada, ativo := true, eh_pagamento_fatura := false,
    cartao_origem_id := none }

/-- State for the C7 witness: account 5 does not exist. -/
def C7db : Db :=
  { contas := [{ id := 1, saldo_atual := 100 }], cartoes := [], despesas := [C7row],
    receitas := [], orcamentos := [], nextDespesaId := 2, nextReceitaId := 1 }

/-- A confirmed non-invoice expense payload against missing account 5. -/
def C7inp : DespesaInput :=
  { account_id := 5, valor := 60, data_despesa := ⟨2024, 3, 15⟩, status := Status.confirmada,
    eh_pagamento_fatura := false, cartao_origem_id := none }

/-- A patch (amount change only) for the C7 witness update. -/
def C7patch : DespesaPatch := { valor := some 80 }

theorem updateAccountBalance_missing_account_noop_witness :
    findConta C7db 5 = none
    ∧ updateAccountBalance 5 60 Op.subtract C7db = C7db
    ∧ ((Despesa.create 0 true 7 C7inp C7db).1.error = none
        ∧ (Despesa.create 0 true 7 C7inp C7db).2.contas = C7db.contas)
    ∧ ((Despesa.update 0 true 1 7 C7patch C7db).1.error = none
        ∧ (Despesa.update 0 true 1 7 C7patch C7db).2.contas = C7db.contas)
    ∧ ((Despesa.delete 0 true 1 7 C7db).1.success = true
        ∧ (Despesa.delete 0 true 1 7 C7db).2.contas = C7db.contas) := by
  have base := updateAccountBalance_missing_account_noop 0 7 5 1 60 Op.subtract C7db C7inp
    C7patch C7row rfl
  exact ⟨rfl, base.1, base.2.1 rfl rfl rfl, base.2.2.1 rfl rfl rfl rfl,
    base.2.2.2 rfl rfl rfl rfl⟩

/-! ### Claim C8 -/

/-- Claim C8: when the primary write fails (the insert on create, the update
write on update, the soft-delete write on delete), the operation reports an
error and the state — account balances, card limits and budget totals
included — is completely unchanged. -/
theorem despesa_primary_write_failure_atomic (tz : Int) (i u : Nat) (db : Db)
    (inp : DespesaInput) (p : DespesaPatch) :
    ((Despesa.create tz false u inp db).1.error = some GzenError.primaryWriteFailed
      ∧ (Despesa.create tz false u inp db).2 = db)
    ∧ ((Despesa.update tz false i u p db).1.error.isSome = true
      ∧ (Despesa.update tz false i u p db).2 = db)
    ∧ ((Despesa.delete tz false i u db).1.success = false
      ∧ (Despesa.delete tz false i u db).1.error.isSome = true
      ∧ (Despesa.delete tz false i u db).2 = db) := by
  refine ⟨⟨rfl, rfl⟩, ?_, ?_⟩
  · unfold Despesa.update
    cases Despesa.findById i u db <;> simp
  · unfold Despesa.delete
    cases Despesa.findById i u db <;> simp

/-! ### Claim C9 -/

/-- Claim C9 (amended): the budget-period key that `updateOrcamento` derives
(via `periodKeyOf`) equals the month and year of the transaction's own stored
date whenever the server's zone offset is non-negative (UTC or east of it) or
the stored day-of-month is at least 2.  (With a negative offset and day 1 the
key falls in the previous calendar month — see the counterexample — so the
key is not independent of the server's timezone.) -/
theorem periodKey_matches_stored_date (tz : Int) (d : GDate)
    (h : 0 ≤ tz ∨ 2 ≤ d.dia) :
    periodKeyOf tz d = (d.mes, d.ano) := by
  rcases h with h | h
  · simp [periodKeyOf, localCivilDate, h]
  · unfold periodKeyOf localCivilDate
    by_cases h0 : 0 ≤ tz
    · simp [h0]
    · simp only [if_neg h0]
      unfold GDate.prevDay
      rw [if_pos (by omega : 1 < d.dia)]

theorem periodKey_matches_stored_date_witness :
    ((0 : Int) ≤ -180 ∨ 2 ≤ (⟨2024, 3, 15⟩ : GDate).dia)
    ∧ periodKeyOf (-180) ⟨2024, 3, 15⟩ = (3, 2024) :=
  ⟨Or.inr (by decide), periodKey_matches_stored_date (-180) ⟨2024, 3, 15⟩ (Or.inr (by decide))⟩

/-- Empty state for the C9 counterexample. -/
def C9db : Db :=
  { contas := [], cartoes := [], despesas := [], receitas := [], orcamentos := [],
    nextDespesaId := 1, nextReceitaId := 1 }

/-- Claim C9 counterexample: on a server west of UTC (São Paulo, offset −180
minutes — the timezone the source's `create` comment assumes), an expense
dated 2024-03-01 is rolled into period (2, 2024) rather than (3, 2024): the
derived key depends on the server's timezone. -/
theorem periodKey_depends_on_timezone :
    periodKeyOf (-180) ⟨2024, 3, 1⟩ = (2, 2024)
    ∧ periodKeyOf 0 ⟨2024, 3, 1⟩ = (3, 2024)
    ∧ findOrcamento (updateOrcamento (-180) 7 ⟨2024, 3, 1⟩ 100 Tipo.despesa Op.add C9db)
        7 3 2024 = none
    ∧ orcDespesaTotal (updateOrcamento (-180) 7 ⟨2024, 3, 1⟩ 100 Tipo.despesa Op.add C9db)
        7 2 2024 = some 100 := by
  refine ⟨by decide, by decide, ?_, ?_⟩ <;>
    simp [C9db, updateOrcamento, periodKeyOf, localCivilDate, GDate.prevDay, daysInMonth,
      isLeapYear, findOrcamento, orcKey, jsOr, orcDespesaTotal, List.find?]

/-! ### Claim C10 -/

/-- A stored confirmed non-invoice expense of amount `v` for C10. -/
def C10row (v : ℚ) : DespesaRow :=
  { id := 1, user_id := 7, account_id := 1, valor := v, data_despesa := ⟨2024, 3, 15⟩,
    status := Status.confirmada, ativo := true, eh_pagamento_fatura := false,
    cartao_origem_id := none }

def C10db (b v r0 e0 s0 g0 : ℚ) : Db :=
  { contas := [{ id := 1, saldo_atual := b }], cartoes := [], despesas := [C10row v],
    receitas := [],
    orcamentos := [{ user_id := 7, mes := 3, ano := 2024, receita_total := r0,
                     despesa_total := e0, saldo_atual := s0, meta_economia := g0 }],
    nextDespesaId := 2, nextReceitaId := 1 }

def C10after1 (b v r0 e0 s0 g0 : ℚ) : Db :=
  (Despesa.delete 0 true 1 7 (C10db b v r0 e0 s0 g0)).2

def C10after2 (b v r0 e0 s0 g0 : ℚ) : Db :=
  (Despesa.delete 0 true 1 7 (C10after1 b v r0 e0 s0 g0)).2

/-- Claim C10: `delete` is not idempotent on confirmed expenses, because
`findById` does not filter on the `ativo` flag: after a first soft delete the
row is inactive yet still found, so a second delete again returns success and
reverses the monetary effect a second time (balance `b + v + v`, expense
total `e0 - v - v`). -/
theorem despesa_delete_not_idempotent (b v r0 e0 s0 g0 : ℚ) :
    (Despesa.delete 0 true 1 7 (C10db b v r0 e0 s0 g0)).1.success = true
    ∧ contaSaldo (C10after1 b v r0 e0 s0 g0) 1 = some (b + v)
    ∧ (Despesa.findById 1 7 (C10after1 b v r0 e0 s0 g0)).map (fun d => d.ativo) = some false
    ∧ (Despesa.delete 0 true 1 7 (C10after1 b v r0 e0 s0 g0)).1.success = true
    ∧ contaSaldo (C10after2 b v r0 e0 s0 g0) 1 = some (b + v + v)
    ∧ orcDespesaTotal (C10after2 b v r0 e0 s0 g0) 7 3 2024 = some (e0 - v - v) := by
  refine ⟨?_, ?_, ?_, ?_, ?_, ?_⟩ <;>
    simp [C10after2, C10after1, C10db, C10row, Despesa.delete, Despesa.findById,
      Despesa.reverterDespesa, Despesa.processarPagamentoFatura, updateAccountBalance,
      updateOrcamento, findConta, findOrcamento, findCartao, orcKey, jsOr, periodKeyOf,
      localCivilDate, contaSaldo, orcDespesaTotal, List.find?] <;> ring
